import Mathlib

/-!
Shallow embedding of `check_oozie_workflows.py`, a Nagios-style health
check for Oozie coordinators and their workflow runs.

Modelling conventions:
* Python strings become `String`; JSON records become structures of the
  fields the script reads.
* The numeric values `frequency` and `days` are floats/ints in the
  script; float arithmetic is modelled exactly over `ℚ`, and Python's
  `int(...)` truncation toward zero is `pyInt`.
* A Python `dict` used as a job filter becomes the map
  `JobFilter := String → Option String`; `ExtensibleDict.copy_with`
  becomes `copy_with`, which folds the keyword overrides into a new map
  (the original is untouched by construction, matching the
  non-mutation contract of `copy_with`).
* The HTTP layer is an oracle: issuing a request means applying an
  arbitrary service function `ReqParams → ...` to the parameters the
  script builds.  `Oozie.jobs` returns `Except String ReqParams`: an
  `Except.error` means the exception was raised before any request was
  issued.
* `print` statements become lists of rendered lines; `print wf` (the
  raw record at verbosity > 2) is rendered by `wfRepr`.
-/

namespace OozieCheck

/-- `NagiosState` from the script: `Ok = 0 < Warn = 1 < Error = 2 < Unknown = 3`. -/
inductive NagiosState where
  | Ok
  | Warn
  | Error
  | Unknown
deriving DecidableEq, Repr

/-- The `IntEnum` value of a `NagiosState`. -/
def NagiosState.toNat : NagiosState → Nat
  | NagiosState.Ok => 0
  | NagiosState.Warn => 1
  | NagiosState.Error => 2
  | NagiosState.Unknown => 3

/-- The `.name` attribute of a `NagiosState` member. -/
def NagiosState.name : NagiosState → String
  | NagiosState.Ok => "Ok"
  | NagiosState.Warn => "Warn"
  | NagiosState.Error => "Error"
  | NagiosState.Unknown => "Unknown"

instance : Fintype NagiosState :=
  ⟨⟨{NagiosState.Ok, NagiosState.Warn, NagiosState.Error, NagiosState.Unknown}, by decide⟩,
    by intro x; cases x <;> decide⟩

/-- Python's `max` on two `NagiosState` values (an `IntEnum`, compared by value;
`max(a, b)` keeps `a` unless `b` is strictly larger). -/
def nagMax (a b : NagiosState) : NagiosState :=
  if a.toNat < b.toNat then b else a

/-- The `OozieStatus` enum of the script. -/
inductive OozieStatus where
  | FAILED
  | KILLED
  | SUSPENDED
  | SUCCEEDED
  | RUNNING
  | PREP
deriving DecidableEq, Repr

/-- The enum value lookup `OozieStatus(s)`: `some` member whose value is `s`,
`none` when the constructor raises `ValueError`. -/
def OozieStatus.ofString (s : String) : Option OozieStatus :=
  if s = "FAILED" then some OozieStatus.FAILED
  else if s = "KILLED" then some OozieStatus.KILLED
  else if s = "SUSPENDED" then some OozieStatus.SUSPENDED
  else if s = "SUCCEEDED" then some OozieStatus.SUCCEEDED
  else if s = "RUNNING" then some OozieStatus.RUNNING
  else if s = "PREP" then some OozieStatus.PREP
  else none

/-- `OozieStatus.to_nagios` from the script. -/
def OozieStatus.to_nagios : OozieStatus → NagiosState
  | OozieStatus.FAILED => NagiosState.Error
  | OozieStatus.KILLED => NagiosState.Warn
  | OozieStatus.SUSPENDED => NagiosState.Warn
  | _ => NagiosState.Ok

/-- `oozie_status_to_nagios` from the script: parse the status string into the
enum and map it; any failure (unrecognized string) yields `Unknown`.
The spec calls this operation `toSeverity`. -/
def oozie_status_to_nagios (s : String) : NagiosState :=
  match OozieStatus.ofString s with
  | some os => os.to_nagios
  | none => NagiosState.Unknown

/-- Python's `int(...)` applied to a rational: truncation toward zero. -/
def pyInt (q : ℚ) : Int :=
  if 0 ≤ q then ⌊q⌋ else ⌈q⌉

/-- `Oozie._coordinator_runs_per_day` from the script, with float arithmetic
modelled over `ℚ` and `frequency` taken as the already-parsed number. -/
def runsPerDay (timeUnit : String) (frequency : ℚ) : ℚ :=
  let multiplier : ℚ :=
    if timeUnit = "DAY" then 1
    else if timeUnit = "MINUTE" then 24 * 60
    else if timeUnit = "HOUR" then 24
    else if timeUnit = "WEEK" then 1 / 7
    else if timeUnit = "MONTH" then 1 / 30
    else 1
  multiplier / frequency

/-- A job filter: the Python dict mapping filter keys to values. -/
def JobFilter : Type := String → Option String

/-- `ExtensibleDict.copy_with`: fold the keyword overrides into a copy of the
base dict, later writes shadowing earlier ones; the base map is a pure value
and is never mutated. -/
def copy_with (base : JobFilter) (kwargs : List (String × String)) : JobFilter :=
  kwargs.foldl (fun acc kv => fun q => if q = kv.1 then some kv.2 else acc q) base

/-- The last binding of key `k` in an override list (Python `dict` semantics:
a later write to the same key wins). -/
def lookupLast : List (String × String) → String → Option String
  | [], _ => none
  | kv :: rest, k =>
      match lookupLast rest k with
      | some v => some v
      | none => if kv.1 = k then some kv.2 else none

/-- `Oozie._checkJobtype`: returns the jobtype when it is one of the three
recognized values, otherwise raises `Exception('unknown jobtype')`. -/
def checkJobtype (jobtype : String) : Except String String :=
  if jobtype = "wf" ∨ jobtype = "coordinator" ∨ jobtype = "bundle" then Except.ok jobtype
  else Except.error "unknown jobtype"

/-- The query parameters `Oozie.jobs` assembles for the `jobs` endpoint
(the filter is kept as the abstract map; its `;`-joined string encoding has
unspecified key order and is not modelled further). -/
structure ReqParams where
  filter : JobFilter
  jobtype : String
  len : Int
  offset : Int

/-- `Oozie.jobs`: validate the jobtype, then issue the request.  An
`Except.error` result means the exception propagated before any network
call was made; an `Except.ok p` result means an HTTP GET with parameters `p`
is issued. -/
def jobs (filter : JobFilter) (jobtype : String) (len : Int) (offset : Int) :
    Except String ReqParams :=
  match checkJobtype jobtype with
  | Except.ok jt => Except.ok { filter := filter, jobtype := jt, len := len, offset := offset }
  | Except.error e => Except.error e

/-- The fields of a coordinator record that the script reads
(`frequency` as the parsed number). -/
structure CoordJob where
  coordJobName : String
  status : String
  timeUnit : String
  frequency : ℚ
  coordJobPath : String
deriving DecidableEq

/-- The fields of a workflow record that the script reads. -/
structure WorkflowJob where
  id : String
  status : String
  startTime : String
deriving DecidableEq

/-- A coordinator record after the script attaches its `workflows` list. -/
structure EnrichedCoord where
  coord : CoordJob
  workflows : List WorkflowJob
deriving DecidableEq

/-- Python's `str.split('/')` on the character list of a path: always a
nonempty list of segments, with empty segments kept (`"".split('/') = ['']`). -/
def splitSlash : List Char → List (List Char)
  | [] => [[]]
  | ch :: rest =>
      if ch = '/' then [] :: splitSlash rest
      else
        match splitSlash rest with
        | seg :: segs => (ch :: seg) :: segs
        | [] => [[ch]]

/-- `coordPath.split('/')[-1]` from the script: the final `/`-delimited
segment of a path (the empty string when the path is empty or ends in `/`). -/
def lastSegment (path : String) : String :=
  String.mk ((splitSlash path.toList).getLastD [])

/-- The parameters of the per-coordinator workflow query built inside
`Oozie.coordinator`: `number_to_fetch = int(days * runs_per_day)` as the
limit, and the original filter extended with `name = appName` where
`appName` is the last path segment of `coordJobPath`. -/
def workflowQueryParams (days : ℚ) (fd : JobFilter) (c : CoordJob) : ReqParams :=
  let number_to_fetch := pyInt (days * runsPerDay c.timeUnit c.frequency)
  let appName := lastSegment c.coordJobPath
  let ftr := copy_with fd [("name", appName)]
  { filter := ftr, jobtype := "wf", len := number_to_fetch, offset := 1 }

/-- The body of the `for c in cc` loop of `Oozie.coordinator`: query the
workflow service with the per-coordinator parameters and attach the result. -/
def coordinatorStep (days : ℚ) (fd : JobFilter) (wsvc : ReqParams → List WorkflowJob)
    (c : CoordJob) : EnrichedCoord :=
  { coord := c, workflows := wsvc (workflowQueryParams days fd c) }

/-- `Oozie.coordinator`: query running coordinators (with the base filter
extended by `status = RUNNING` and the default limit 100, offset 1), then
enrich each returned coordinator with its recent workflows.  `csvc` and
`wsvc` are the service oracle for the two kinds of request. -/
def coordinator (days : ℚ) (filter : JobFilter) (csvc : ReqParams → List CoordJob)
    (wsvc : ReqParams → List WorkflowJob) : List EnrichedCoord :=
  let fd := filter
  let cc := csvc { filter := copy_with fd [("status", "RUNNING")], jobtype := "coordinator",
                   len := 100, offset := 1 }
  cc.map (coordinatorStep days fd wsvc)

/-- The worst-wins reduction at verbosity 1 in the script's report loop:
`max` of the workflow severities for a nonempty list, `Unknown` for an
empty one.  The spec calls this operation `reduceWorkflowSeverity`. -/
def reduceWorkflowSeverity (workflows : List WorkflowJob) : NagiosState :=
  match workflows with
  | [] => NagiosState.Unknown
  | w :: rest =>
      (rest.map (fun x => oozie_status_to_nagios x.status)).foldl nagMax
        (oozie_status_to_nagios w.status)

/-- Rendering of `print wf` (the raw workflow record) at verbosity > 2. -/
def wfRepr (wf : WorkflowJob) : String :=
  wf.id ++ " " ++ wf.status ++ " " ++ wf.startTime

/-- The verbosity-2 line: coordinator name and status, workflow status, id,
and quoted start time. -/
def wfLine2 (c : CoordJob) (wf : WorkflowJob) : String :=
  c.coordJobName ++ " " ++ c.status ++ " " ++ wf.status ++ " " ++ wf.id ++
    " \"" ++ wf.startTime ++ "\""

/-- The verbosity-1 per-coordinator line: name, workflow count, and the
worst workflow severity name (`Unknown` when there are no workflows). -/
def coordLine1 (c : EnrichedCoord) : String :=
  if c.workflows.isEmpty then
    c.coord.coordJobName ++ " " ++ toString c.workflows.length ++ " " ++
      NagiosState.Unknown.name
  else
    c.coord.coordJobName ++ " " ++ toString c.workflows.length ++ " " ++
      (reduceWorkflowSeverity c.workflows).name

/-- The body of the inner `for wf in workflows` loop of the report section:
possibly emit a line for this workflow, then fold its severity into the
running exit code with `max`. -/
def reportStepWf (v : Nat) (c : CoordJob) (acc : NagiosState × List String)
    (wf : WorkflowJob) : NagiosState × List String :=
  let nag := oozie_status_to_nagios wf.status
  let lines :=
    if 2 < v then acc.2 ++ [wfRepr wf]
    else if v = 2 then acc.2 ++ [wfLine2 c wf]
    else acc.2
  (nagMax acc.1 nag, lines)

/-- The body of the outer `for c in cc` loop: fold the coordinator's
workflows, then emit the verbosity-1 summary line if requested. -/
def reportStepCoord (v : Nat) (acc : NagiosState × List String) (c : EnrichedCoord) :
    NagiosState × List String :=
  let inner := c.workflows.foldl (reportStepWf v c.coord) acc
  if v = 1 then (inner.1, inner.2 ++ [coordLine1 c]) else inner

/-- The report section of `__main__` (lines 192-217): starting from exit
code `Ok`, fold every coordinator, producing the final severity and the
printed lines.  The spec calls this operation `report`. -/
def report (v : Nat) (cc : List EnrichedCoord) : NagiosState × List String :=
  cc.foldl (reportStepCoord v) (NagiosState.Ok, [])

/-- The `try/except` of `__main__`: on a successful fetch the process exits
with the numeric value of the reported severity after the report lines; on
any raised failure it prints the failure description and exits with
`Unknown` (3), with no report lines.  Result: (exit code, printed lines). -/
def mainRun (v : Nat) (fetch : Except String (List EnrichedCoord)) : Int × List String :=
  match fetch with
  | Except.error msg => ((NagiosState.Unknown.toNat : Int), [msg])
  | Except.ok cc =>
      let r := report v cc
      ((r.1.toNat : Int), r.2)

/-- Spec-modelled for comparison (the spec's `report` contract, clause 1):
"`overallSeverity` = maximum of `reduceWorkflowSeverity` over every
coordinator's workflows, across all coordinators; `Ok` if there are no
coordinators".  Written from the spec's words, to be compared with the
severity `report` actually computes. -/
def overallSeveritySpec (cc : List EnrichedCoord) : NagiosState :=
  match cc with
  | [] => NagiosState.Ok
  | c :: rest =>
      (rest.map (fun x => reduceWorkflowSeverity x.workflows)).foldl nagMax
        (reduceWorkflowSeverity c.workflows)

/-! ### Helper lemmas -/

lemma copy_with_nil (base : JobFilter) (q : String) : copy_with base [] q = base q := rfl

lemma copy_with_cons (base : JobFilter) (kv : String × String) (rest : List (String × String))
    (q : String) :
    copy_with base (kv :: rest) q =
      copy_with (fun x => if x = kv.1 then some kv.2 else base x) rest q := rfl

lemma copy_with_eq_lookupLast (ov : List (String × String)) :
    ∀ (base : JobFilter) (q : String),
      copy_with base ov q =
        match lookupLast ov q with
        | some v => some v
        | none => base q := by
  induction ov with
  | nil => intro base q; rfl
  | cons kv rest ih =>
      intro base q
      rw [copy_with_cons, ih]
      cases hrest : lookupLast rest q with
      | some v => simp [lookupLast, hrest]
      | none =>
          simp only [lookupLast, hrest]
          by_cases hq : q = kv.1
          · simp [hq]
          · have hq2 : ¬kv.1 = q := fun hh => hq hh.symm
            simp [hq, hq2]

/-! ### Theorems for the claims -/

/-- C2: `toSeverity` (`oozie_status_to_nagios`) is total on strings, maps
`FAILED` to `Error`, `KILLED` and `SUSPENDED` to `Warn`, `SUCCEEDED`,
`RUNNING` and `PREP` to `Ok`, and every other string to `Unknown`. -/
theorem claim_C2 :
    oozie_status_to_nagios "FAILED" = NagiosState.Error ∧
    oozie_status_to_nagios "KILLED" = NagiosState.Warn ∧
    oozie_status_to_nagios "SUSPENDED" = NagiosState.Warn ∧
    oozie_status_to_nagios "SUCCEEDED" = NagiosState.Ok ∧
    oozie_status_to_nagios "RUNNING" = NagiosState.Ok ∧
    oozie_status_to_nagios "PREP" = NagiosState.Ok ∧
    ∀ s : String,
      s ∉ (["FAILED", "KILLED", "SUSPENDED", "SUCCEEDED", "RUNNING", "PREP"] : List String) →
      oozie_status_to_nagios s = NagiosState.Unknown := by
  refine ⟨by decide, by decide, by decide, by decide, by decide, by decide, ?_⟩
  intro s h
  simp only [List.mem_cons, List.not_mem_nil, or_false, not_or] at h
  obtain ⟨h1, h2, h3, h4, h5, h6⟩ := h
  simp [oozie_status_to_nagios, OozieStatus.ofString, h1, h2, h3, h4, h5, h6]

/-- Witness for C2 at the empty string. -/
theorem claim_C2_witness :
    ("" ∉ (["FAILED", "KILLED", "SUSPENDED", "SUCCEEDED", "RUNNING", "PREP"] : List String)) ∧
    oozie_status_to_nagios "" = NagiosState.Unknown :=
  ⟨by decide, claim_C2.2.2.2.2.2.2 "" (by decide)⟩

/-- C6: `runsPerDay` equals multiplier / frequency with multiplier 1 for DAY,
1440 for MINUTE, 24 for HOUR, 1/7 for WEEK, 1/30 for MONTH, and 1 for any
other time unit (silent fallback); with the three documented examples. -/
theorem claim_C6 :
    (∀ f : ℚ, runsPerDay "DAY" f = 1 / f) ∧
    (∀ f : ℚ, runsPerDay "MINUTE" f = 1440 / f) ∧
    (∀ f : ℚ, runsPerDay "HOUR" f = 24 / f) ∧
    (∀ f : ℚ, runsPerDay "WEEK" f = 1 / 7 / f) ∧
    (∀ f : ℚ, runsPerDay "MONTH" f = 1 / 30 / f) ∧
    (∀ (tu : String) (f : ℚ),
      tu ∉ (["DAY", "MINUTE", "HOUR", "WEEK", "MONTH"] : List String) → runsPerDay tu f = 1 / f) ∧
    runsPerDay "DAY" 1 = 1 ∧ runsPerDay "DAY" 2 = 1 / 2 ∧ runsPerDay "MINUTE" 360 = 4 := by
  refine ⟨?_, ?_, ?_, ?_, ?_, ?_, ?_, ?_, ?_⟩
  · intro f; simp [runsPerDay]
  · intro f
    simp only [runsPerDay, String.reduceEq, reduceIte]
    norm_num
  · intro f
    simp only [runsPerDay, String.reduceEq, reduceIte]
  · intro f
    simp only [runsPerDay, String.reduceEq, reduceIte]
  · intro f
    simp only [runsPerDay, String.reduceEq, reduceIte]
  · intro tu f h
    simp only [List.mem_cons, List.not_mem_nil, or_false, not_or] at h
    obtain ⟨h1, h2, h3, h4, h5⟩ := h
    simp only [runsPerDay]
    rw [if_neg h1, if_neg h2, if_neg h3, if_neg h4, if_neg h5]
  · simp only [runsPerDay, String.reduceEq, reduceIte]; norm_num
  · simp only [runsPerDay, String.reduceEq, reduceIte]
  · simp only [runsPerDay, String.reduceEq, reduceIte]; norm_num

/-- Witness for C6's fallback clause at the unrecognized time unit `YEAR`. -/
theorem claim_C6_witness :
    ("YEAR" ∉ (["DAY", "MINUTE", "HOUR", "WEEK", "MONTH"] : List String)) ∧
    runsPerDay "YEAR" 5 = 1 / 5 :=
  ⟨by decide, claim_C6.2.2.2.2.2.1 "YEAR" 5 (by decide)⟩

/-- C7: `copy_with` returns a filter whose value at each overridden key is the
override value (the last write to that key winning) and whose value at every
other key is the base filter's value; single-key extensions with distinct keys
commute, and a repeated write to the same key is absorbed by the last one.
The base map is a pure value, so it is left unmodified by construction. -/
theorem claim_C7 :
    (∀ (base : JobFilter) (ov : List (String × String)) (k v : String),
      lookupLast ov k = some v → copy_with base ov k = some v) ∧
    (∀ (base : JobFilter) (ov : List (String × String)) (k : String),
      lookupLast ov k = none → copy_with base ov k = base k) ∧
    (∀ (base : JobFilter) (k1 v1 k2 v2 q : String), k1 ≠ k2 →
      copy_with (copy_with base [(k1, v1)]) [(k2, v2)] q =
        copy_with (copy_with base [(k2, v2)]) [(k1, v1)] q) ∧
    (∀ (base : JobFilter) (k v1 v2 q : String),
      copy_with (copy_with base [(k, v1)]) [(k, v2)] q = copy_with base [(k, v2)] q) := by
  refine ⟨?_, ?_, ?_, ?_⟩
  · intro base ov k v h
    rw [copy_with_eq_lookupLast, h]
  · intro base ov k h
    rw [copy_with_eq_lookupLast, h]
  · intro base k1 v1 k2 v2 q h
    show (if q = k2 then some v2 else if q = k1 then some v1 else base q) =
      (if q = k1 then some v1 else if q = k2 then some v2 else base q)
    by_cases h1 : q = k1
    · have h2 : ¬q = k2 := fun hh => h (h1 ▸ hh)
      subst h1
      simp [h2]
    · by_cases h2 : q = k2
      · subst h2
        simp [h1]
      · simp [h1, h2]
  · intro base k v1 v2 q
    show (if q = k then some v2 else if q = k then some v1 else base q) =
      (if q = k then some v2 else base q)
    by_cases h1 : q = k <;> simp [h1]

/-- Witness for C7 on a concrete base filter and override lists. -/
theorem claim_C7_witness :
    (lookupLast [("name", "a"), ("name", "b")] "name" = some "b") ∧
    copy_with (fun _ => none) [("name", "a"), ("name", "b")] "name" = some "b" ∧
    (lookupLast [("name", "a")] "user" = none) ∧
    copy_with (fun q => if q = "user" then some "t4b" else none) [("name", "a")] "user" =
      (fun q => if q = "user" then some "t4b" else none : JobFilter) "user" ∧
    ("name" ≠ "user") ∧
    copy_with (copy_with (fun _ => none) [("name", "a")]) [("user", "u")] "name" =
      copy_with (copy_with (fun _ => none) [("user", "u")]) [("name", "a")] "name" :=
  ⟨by decide, claim_C7.1 (fun _ => none) [("name", "a"), ("name", "b")] "name" "b" (by decide),
    by decide,
    claim_C7.2.1 (fun q => if q = "user" then some "t4b" else none) [("name", "a")] "user"
      (by decide),
    by decide,
    claim_C7.2.2.1 (fun _ => none) "name" "a" "user" "u" "name" (by decide)⟩

/-- C8: `Oozie.jobs` on a jobtype outside `{wf, coordinator, bundle}` raises
`unknown jobtype` without issuing any request (an `Except.error` result means
no `ReqParams` value is ever produced for the HTTP layer), while each of the
three recognized jobtypes proceeds to the request. -/
theorem claim_C8 :
    (∀ (fd : JobFilter) (jt : String) (l o : Int),
      jt ∉ (["wf", "coordinator", "bundle"] : List String) →
      jobs fd jt l o = Except.error "unknown jobtype") ∧
    (∀ (fd : JobFilter) (l o : Int),
      jobs fd "wf" l o =
        Except.ok { filter := fd, jobtype := "wf", len := l, offset := o }) ∧
    (∀ (fd : JobFilter) (l o : Int),
      jobs fd "coordinator" l o =
        Except.ok { filter := fd, jobtype := "coordinator", len := l, offset := o }) ∧
    (∀ (fd : JobFilter) (l o : Int),
      jobs fd "bundle" l o =
        Except.ok { filter := fd, jobtype := "bundle", len := l, offset := o }) := by
  refine ⟨?_, ?_, ?_, ?_⟩
  · intro fd jt l o h
    simp only [List.mem_cons, List.not_mem_nil, or_false, not_or] at h
    obtain ⟨h1, h2, h3⟩ := h
    simp [jobs, checkJobtype, h1, h2, h3]
  · intro fd l o; rfl
  · intro fd l o; rfl
  · intro fd l o; rfl

/-- Witness for C8 at the invalid jobtype `job`. -/
theorem claim_C8_witness :
    ("job" ∉ (["wf", "coordinator", "bundle"] : List String)) ∧
    jobs (fun _ => none) "job" 100 1 = Except.error "unknown jobtype" :=
  ⟨by decide, claim_C8.1 (fun _ => none) "job" 100 1 (by decide)⟩

lemma runsPerDay_pos (tu : String) (f : ℚ) (hf : 0 < f) : 0 < runsPerDay tu f := by
  simp only [runsPerDay]
  split_ifs <;> positivity

lemma pyInt_of_nonneg (q : ℚ) (h : 0 ≤ q) : pyInt q = ⌊q⌋ := by
  simp [pyInt, h]

/-- C4: the per-coordinator workflow query requests exactly
`quota = floor(daysBack * runsPerDay(timeUnit, frequency))` workflow runs
as its `len` limit (for a nonnegative lookback and positive frequency, where
Python's toward-zero `int(...)` truncation coincides with the floor), and the
attached workflow list is the service's response to exactly that request;
with the spec's example `timeUnit = DAY`, `frequency = 1`, `daysBack = 3`
giving quota 3. -/
theorem claim_C4 :
    (∀ (days : ℚ) (fd : JobFilter) (wsvc : ReqParams → List WorkflowJob) (c : CoordJob),
      0 ≤ days → 0 < c.frequency →
      ((workflowQueryParams days fd c).len = ⌊days * runsPerDay c.timeUnit c.frequency⌋ ∧
       (coordinatorStep days fd wsvc c).workflows = wsvc (workflowQueryParams days fd c))) ∧
    (∀ (fd : JobFilter) (nm st path : String),
      (workflowQueryParams 3 fd
        { coordJobName := nm, status := st, timeUnit := "DAY", frequency := 1,
          coordJobPath := path }).len = 3) := by
  constructor
  · intro days fd wsvc c hdays hfreq
    refine ⟨?_, rfl⟩
    show pyInt (days * runsPerDay c.timeUnit c.frequency) = _
    exact pyInt_of_nonneg _ (mul_nonneg hdays (le_of_lt (runsPerDay_pos _ _ hfreq)))
  · intro fd nm st path
    show pyInt ((3 : ℚ) * runsPerDay "DAY" 1) = 3
    norm_num [pyInt, runsPerDay]

/-- An empty filter, for witnesses. -/
def emptyFilter : JobFilter := fun _ => none

/-- A daily coordinator, for witnesses. -/
def dailyCoord : CoordJob :=
  { coordJobName := "c", status := "RUNNING", timeUnit := "DAY", frequency := 1,
    coordJobPath := "/a/c" }

/-- The workflow oracle answering every request with no workflows, for witnesses. -/
def emptyWsvc : ReqParams → List WorkflowJob := fun _ => []

/-- Witness for C4 at `daysBack = 3`, `timeUnit = DAY`, `frequency = 1`. -/
theorem claim_C4_witness :
    (0 ≤ (3 : ℚ)) ∧ (0 < dailyCoord.frequency) ∧
    ((workflowQueryParams 3 emptyFilter dailyCoord).len =
        ⌊(3 : ℚ) * runsPerDay dailyCoord.timeUnit dailyCoord.frequency⌋ ∧
      (coordinatorStep 3 emptyFilter emptyWsvc dailyCoord).workflows =
        emptyWsvc (workflowQueryParams 3 emptyFilter dailyCoord)) :=
  ⟨by norm_num, by norm_num [dailyCoord],
    claim_C4.1 3 emptyFilter emptyWsvc dailyCoord (by norm_num) (by norm_num [dailyCoord])⟩

/-- C5: the per-coordinator workflow query's filter is the original filter
extended with `name = appName`, where `appName` is the final `/`-delimited
segment of `coordJobPath`; the derived name (and the whole query) is
independent of `coordJobName`, and the spec's example path derives
`t4b-review-dashboard`. -/
theorem claim_C5 :
    (∀ (days : ℚ) (fd : JobFilter) (c : CoordJob) (q : String),
      (workflowQueryParams days fd c).filter q =
        copy_with fd [("name", lastSegment c.coordJobPath)] q) ∧
    lastSegment "/user/t4b/workflows/t4b-review-dashboard" = "t4b-review-dashboard" ∧
    (∀ (days : ℚ) (fd : JobFilter) (c cb : CoordJob),
      c.timeUnit = cb.timeUnit → c.frequency = cb.frequency →
      c.coordJobPath = cb.coordJobPath →
      workflowQueryParams days fd c = workflowQueryParams days fd cb) := by
  refine ⟨fun days fd c q => rfl, by decide, ?_⟩
  intro days fd c cb h1 h2 h3
  simp only [workflowQueryParams, h1, h2, h3]

/-- A coordinator named `nameA`, for the C5 witness. -/
def coordNameA : CoordJob :=
  { coordJobName := "nameA", status := "RUNNING", timeUnit := "DAY", frequency := 1,
    coordJobPath := "/x/app" }

/-- The same coordinator as `coordNameA` except for its name and status,
for the C5 witness. -/
def coordNameB : CoordJob :=
  { coordJobName := "nameB", status := "PREP", timeUnit := "DAY", frequency := 1,
    coordJobPath := "/x/app" }

/-- Witness for C5: two coordinators sharing path, time unit and frequency
but with different `coordJobName` and `status` produce the same query. -/
theorem claim_C5_witness :
    coordNameA.timeUnit = coordNameB.timeUnit ∧
    coordNameA.frequency = coordNameB.frequency ∧
    coordNameA.coordJobPath = coordNameB.coordJobPath ∧
    workflowQueryParams 3 emptyFilter coordNameA =
      workflowQueryParams 3 emptyFilter coordNameB :=
  ⟨rfl, rfl, rfl, claim_C5.2.2 3 emptyFilter coordNameA coordNameB rfl rfl rfl⟩

/-! ### The severity maximum as a fold -/

/-- Folding the workflow severities of a list into a running maximum
(the first projection of the inner report loop). -/
def wfFold (s : NagiosState) (ws : List WorkflowJob) : NagiosState :=
  ws.foldl (fun s2 wf => nagMax s2 (oozie_status_to_nagios wf.status)) s

/-- Folding every coordinator's workflow severities into a running maximum
(the first projection of the outer report loop). -/
def coordFold (s : NagiosState) (cc : List EnrichedCoord) : NagiosState :=
  cc.foldl (fun s2 c => wfFold s2 c.workflows) s

lemma nagMax_ok_left : ∀ a, nagMax NagiosState.Ok a = a := by decide

lemma nagMax_ok_right : ∀ a, nagMax a NagiosState.Ok = a := by decide

lemma nagMax_assoc : ∀ a b c, nagMax (nagMax a b) c = nagMax a (nagMax b c) := by decide

lemma le_nagMax_left : ∀ a b, a.toNat ≤ (nagMax a b).toNat := by decide

lemma le_nagMax_right : ∀ a b, b.toNat ≤ (nagMax a b).toNat := by decide

lemma nagMax_cases : ∀ a b, nagMax a b = a ∨ nagMax a b = b := by decide

lemma foldl_nagMax_hoist (l : List NagiosState) :
    ∀ a b, l.foldl nagMax (nagMax a b) = nagMax a (l.foldl nagMax b) := by
  induction l with
  | nil => intro a b; rfl
  | cons x rest ih =>
      intro a b
      rw [List.foldl_cons, List.foldl_cons, nagMax_assoc, ih]

lemma foldl_nagMax_init (l : List NagiosState) (a : NagiosState) :
    l.foldl nagMax a = nagMax a (l.foldl nagMax NagiosState.Ok) := by
  have h := foldl_nagMax_hoist l a NagiosState.Ok
  rwa [nagMax_ok_right] at h

lemma foldl_nagMax_le_init (l : List NagiosState) :
    ∀ a, a.toNat ≤ (l.foldl nagMax a).toNat := by
  induction l with
  | nil => intro a; exact le_refl _
  | cons x rest ih =>
      intro a
      exact le_trans (le_nagMax_left a x) (ih (nagMax a x))

lemma foldl_nagMax_le_mem (l : List NagiosState) :
    ∀ a, ∀ x ∈ l, x.toNat ≤ (l.foldl nagMax a).toNat := by
  induction l with
  | nil => intro a x hx; exact absurd hx (List.not_mem_nil x)
  | cons y rest ih =>
      intro a x hx
      rcases List.mem_cons.mp hx with h | h
      · subst h
        exact le_trans (le_nagMax_right a x) (foldl_nagMax_le_init rest (nagMax a x))
      · exact ih (nagMax a y) x h

lemma foldl_nagMax_mem (l : List NagiosState) :
    ∀ a, l.foldl nagMax a = a ∨ l.foldl nagMax a ∈ l := by
  induction l with
  | nil => intro a; exact Or.inl rfl
  | cons x rest ih =>
      intro a
      rcases ih (nagMax a x) with h | h
      · rw [List.foldl_cons, h]
        rcases nagMax_cases a x with h2 | h2
        · exact Or.inl h2
        · exact Or.inr (by rw [h2]; exact List.mem_cons_self x rest)
      · exact Or.inr (List.mem_cons_of_mem x h)

lemma wfFold_eq_foldl_map (s : NagiosState) (ws : List WorkflowJob) :
    wfFold s ws = (ws.map (fun wf => oozie_status_to_nagios wf.status)).foldl nagMax s := by
  rw [wfFold, List.foldl_map]

lemma wfFold_hoist (ws : List WorkflowJob) (a b : NagiosState) :
    wfFold (nagMax a b) ws = nagMax a (wfFold b ws) := by
  rw [wfFold_eq_foldl_map, wfFold_eq_foldl_map, foldl_nagMax_hoist]

lemma wfFold_init (ws : List WorkflowJob) (a : NagiosState) :
    wfFold a ws = nagMax a (wfFold NagiosState.Ok ws) := by
  have h := wfFold_hoist ws a NagiosState.Ok
  rwa [nagMax_ok_right] at h

lemma coordFold_cons (s : NagiosState) (c : EnrichedCoord) (cc : List EnrichedCoord) :
    coordFold s (c :: cc) = coordFold (wfFold s c.workflows) cc := rfl

lemma coordFold_hoist (cc : List EnrichedCoord) :
    ∀ a b, coordFold (nagMax a b) cc = nagMax a (coordFold b cc) := by
  induction cc with
  | nil => intro a b; rfl
  | cons c rest ih =>
      intro a b
      rw [coordFold_cons, coordFold_cons, wfFold_hoist, ih]

lemma coordFold_init (cc : List EnrichedCoord) (a : NagiosState) :
    coordFold a cc = nagMax a (coordFold NagiosState.Ok cc) := by
  have h := coordFold_hoist cc a NagiosState.Ok
  rwa [nagMax_ok_right] at h

lemma reduce_eq_wfFold (ws : List WorkflowJob) (h : ws ≠ []) :
    reduceWorkflowSeverity ws = wfFold NagiosState.Ok ws := by
  cases ws with
  | nil => exact absurd rfl h
  | cons w rest =>
      show (rest.map (fun x => oozie_status_to_nagios x.status)).foldl nagMax
          (oozie_status_to_nagios w.status) = _
      rw [wfFold_eq_foldl_map, List.map_cons, List.foldl_cons, nagMax_ok_left]

/-! ### The first projection of the report loop -/

lemma foldl_reportStepWf_fst (v : Nat) (c : CoordJob) (ws : List WorkflowJob) :
    ∀ acc : NagiosState × List String,
      (ws.foldl (reportStepWf v c) acc).1 = wfFold acc.1 ws := by
  induction ws with
  | nil => intro acc; rfl
  | cons w rest ih =>
      intro acc
      rw [List.foldl_cons, ih]
      show wfFold (nagMax acc.1 (oozie_status_to_nagios w.status)) rest = _
      rw [wfFold, wfFold, List.foldl_cons]

lemma reportStepCoord_fst (v : Nat) (acc : NagiosState × List String) (c : EnrichedCoord) :
    (reportStepCoord v acc c).1 = wfFold acc.1 c.workflows := by
  rw [reportStepCoord]
  split
  · exact foldl_reportStepWf_fst v c.coord c.workflows acc
  · exact foldl_reportStepWf_fst v c.coord c.workflows acc

lemma foldl_reportStepCoord_fst (v : Nat) (cc : List EnrichedCoord) :
    ∀ acc : NagiosState × List String,
      (cc.foldl (reportStepCoord v) acc).1 = coordFold acc.1 cc := by
  induction cc with
  | nil => intro acc; rfl
  | cons c rest ih =>
      intro acc
      rw [List.foldl_cons, ih, coordFold_cons]
      rw [reportStepCoord_fst]

lemma report_fst (v : Nat) (cc : List EnrichedCoord) :
    (report v cc).1 = coordFold NagiosState.Ok cc :=
  foldl_reportStepCoord_fst v cc (NagiosState.Ok, [])

/-! ### Relating the report severity to the spec's formula -/

lemma spec_eq_foldOk (cc : List EnrichedCoord) :
    overallSeveritySpec cc =
      (cc.map (fun c => reduceWorkflowSeverity c.workflows)).foldl nagMax NagiosState.Ok := by
  cases cc with
  | nil => rfl
  | cons c rest =>
      show (rest.map (fun x => reduceWorkflowSeverity x.workflows)).foldl nagMax
          (reduceWorkflowSeverity c.workflows) = _
      rw [List.map_cons, List.foldl_cons, nagMax_ok_left]

lemma coordFold_ok_eq_spec_filter (cc : List EnrichedCoord) :
    coordFold NagiosState.Ok cc =
      overallSeveritySpec (cc.filter (fun c => !c.workflows.isEmpty)) := by
  induction cc with
  | nil => rfl
  | cons c rest ih =>
      rw [coordFold_cons, coordFold_init]
      by_cases hw : c.workflows.isEmpty
      · have hwe : c.workflows = [] := List.isEmpty_iff.mp hw
        rw [List.filter_cons_of_neg (by simp [hw]), ← ih, hwe]
        rw [show wfFold NagiosState.Ok [] = NagiosState.Ok from rfl, nagMax_ok_left]
      · have hne : c.workflows ≠ [] := fun hh => hw (by simp [hh])
        rw [List.filter_cons_of_pos (by simp [hw]), spec_eq_foldOk, List.map_cons,
          List.foldl_cons, nagMax_ok_left, foldl_nagMax_init, ← spec_eq_foldOk, ih,
          reduce_eq_wfFold c.workflows hne]

/-- A workflow run that succeeded, for examples. -/
def wfSucceeded : WorkflowJob := { id := "wf1", status := "SUCCEEDED", startTime := "t1" }

/-- A workflow run that failed, for examples. -/
def wfFailed : WorkflowJob := { id := "wf2", status := "FAILED", startTime := "t2" }

/-- A running daily coordinator, for the C1 counterexample and witness. -/
def coordC1 : CoordJob :=
  { coordJobName := "c1", status := "RUNNING", timeUnit := "DAY", frequency := 1,
    coordJobPath := "/user/t4b/c1" }

/-- A coordinator list whose only coordinator has no attached workflow runs,
for the C1 counterexample and witness. -/
def coordNoWorkflows : List EnrichedCoord :=
  [{ coord := coordC1, workflows := [] }]

/-- C1 (amended): the overall severity of `report` equals the maximum of
`reduceWorkflowSeverity` over the coordinators that have at least one
workflow, and is `Ok` when the coordinator list is empty or when no
coordinator has any workflows (a coordinator with an empty workflow list
contributes nothing, rather than `reduceWorkflowSeverity [] = Unknown`). -/
theorem claim_C1 :
    ∀ (v : Nat) (cc : List EnrichedCoord),
      (report v cc).1 = overallSeveritySpec (cc.filter (fun c => !c.workflows.isEmpty)) ∧
      ((∀ c ∈ cc, c.workflows = []) → (report v cc).1 = NagiosState.Ok) := by
  intro v cc
  constructor
  · rw [report_fst, coordFold_ok_eq_spec_filter]
  · intro h
    rw [report_fst, coordFold_ok_eq_spec_filter]
    have hf : cc.filter (fun c => !c.workflows.isEmpty) = [] := by
      rw [List.filter_eq_nil_iff]
      intro c hc
      simp [h c hc]
    rw [hf]
    rfl

/-- Counterexample for C1 as stated: on a single coordinator with no
workflows the report's overall severity is `Ok`, while the maximum of
`reduceWorkflowSeverity` over every coordinator's workflows is `Unknown`. -/
theorem claim_C1_counterexample :
    (report 0 coordNoWorkflows).1 = NagiosState.Ok ∧
    overallSeveritySpec coordNoWorkflows = NagiosState.Unknown ∧
    (report 0 coordNoWorkflows).1 ≠ overallSeveritySpec coordNoWorkflows := by
  refine ⟨by decide, by decide, by decide⟩

/-- Witness for C1 (amended) on the coordinator list with no workflows. -/
theorem claim_C1_witness :
    ((report 0 coordNoWorkflows).1 =
      overallSeveritySpec (coordNoWorkflows.filter (fun c => !c.workflows.isEmpty))) ∧
    (report 0 coordNoWorkflows).1 = NagiosState.Ok :=
  ⟨(claim_C1 0 coordNoWorkflows).1, (claim_C1 0 coordNoWorkflows).2 (by decide)⟩

/-- C3: `reduceWorkflowSeverity` of a nonempty workflow list is the maximum,
in the `Ok < Warn < Error < Unknown` value ordering, of `toSeverity` of each
workflow's status (an upper bound that is attained by some member), it is
`Unknown` on the empty list, and `[SUCCEEDED, FAILED]` reduces to `Error`. -/
theorem claim_C3 :
    reduceWorkflowSeverity [] = NagiosState.Unknown ∧
    reduceWorkflowSeverity [wfSucceeded, wfFailed] = NagiosState.Error ∧
    ∀ ws : List WorkflowJob, ws ≠ [] →
      ((∀ w ∈ ws,
          (oozie_status_to_nagios w.status).toNat ≤ (reduceWorkflowSeverity ws).toNat) ∧
        ∃ w ∈ ws, reduceWorkflowSeverity ws = oozie_status_to_nagios w.status) := by
  refine ⟨rfl, by decide, ?_⟩
  intro ws hws
  cases ws with
  | nil => exact absurd rfl hws
  | cons w rest =>
      constructor
      · intro x hx
        rcases List.mem_cons.mp hx with h | h
        · subst h
          exact foldl_nagMax_le_init _ _
        · exact foldl_nagMax_le_mem _ _ _
            (List.mem_map_of_mem (fun y => oozie_status_to_nagios y.status) h)
      · rcases foldl_nagMax_mem (rest.map (fun x => oozie_status_to_nagios x.status))
            (oozie_status_to_nagios w.status) with h | h
        · exact ⟨w, List.mem_cons_self w rest, h⟩
        · rcases List.mem_map.mp h with ⟨w2, hw2, hw2eq⟩
          exact ⟨w2, List.mem_cons_of_mem w hw2, hw2eq.symm⟩

/-- Witness for C3 on the singleton list of a succeeded workflow. -/
theorem claim_C3_witness :
    (([wfSucceeded] : List WorkflowJob) ≠ []) ∧
    ((∀ w ∈ ([wfSucceeded] : List WorkflowJob),
        (oozie_status_to_nagios w.status).toNat ≤
          (reduceWorkflowSeverity [wfSucceeded]).toNat) ∧
      ∃ w ∈ ([wfSucceeded] : List WorkflowJob),
        reduceWorkflowSeverity [wfSucceeded] = oozie_status_to_nagios w.status) :=
  ⟨by decide, claim_C3.2.2 [wfSucceeded] (by decide)⟩

/-- C9: on a successful run the process exit code is the numeric value of
the final aggregated severity (`Ok = 0`, `Warn = 1`, `Error = 2`,
`Unknown = 3`) and the report lines are printed; on any failure raised
during the fetch sequence the run exits with code 3 after printing only the
failure description — no partial report lines. -/
theorem claim_C9 :
    NagiosState.Ok.toNat = 0 ∧ NagiosState.Warn.toNat = 1 ∧
    NagiosState.Error.toNat = 2 ∧ NagiosState.Unknown.toNat = 3 ∧
    (∀ (v : Nat) (cc : List EnrichedCoord),
      mainRun v (Except.ok cc) = (((report v cc).1.toNat : Int), (report v cc).2)) ∧
    (∀ (v : Nat) (msg : String), mainRun v (Except.error msg) = (3, [msg])) :=
  ⟨rfl, rfl, rfl, rfl, fun _ _ => rfl, fun _ _ => rfl⟩

/-- C10: for a fixed enriched coordinator list the overall severity computed
by the report loop is the same at every verbosity level; verbosity only
selects which lines are printed. -/
theorem claim_C10 :
    ∀ (v vb : Nat) (cc : List EnrichedCoord), (report v cc).1 = (report vb cc).1 := by
  intro v vb cc
  rw [report_fst, report_fst]

end OozieCheck
